import Mathlib

/-!
Shallow embedding of `src/create_snowflake_account_integration.py`, a
single-script provisioning workflow against the Domo HTTP API:

  1. `create_snowflake_account`  — POST `/api/data/v1/accounts`
  2. `create_byos_integration`   — POST `/api/query/v1/byos/accounts`
  3. `get_available_warehouses`  — GET  `/api/query/v1/byos/warehouses/{id}`
  4. `assign_warehouse_to_integration` — PUT same warehouses endpoint
with a top-level driver (`mainRun`) that sequences them.

Modelling conventions:
* The external world (file system contents, each HTTP response and its
  parsed JSON) is an explicit input (`World`).
* JSON scalar values are modelled as `String`; a JSON object field that
  may be absent (accessed via Python's `dict.get`) is `Option String`.
* Every function returns the list of print events it emits and the list
  of HTTP requests it issues, alongside its Python return value.
* Python's `exit(1)` is modelled with `Except Nat`: `.error 1` means the
  process terminated with that exit status; a script that runs to the end
  exits 0.
-/

namespace SnowflakeIntegration

/-- An HTTP response as seen by the script: status code and raw body text. -/
structure HttpResponse where
  status : Nat
  text : String
deriving DecidableEq, Repr

/-- The `configurations` sub-object of the account-creation payload. -/
structure AccountConfigs where
  account : String
  username : String
  privateKey : String
  passPhrase : String
  role : String
deriving DecidableEq, Repr

/-- The JSON body POSTed to `/api/data/v1/accounts`. -/
structure AccountPayload where
  name : String
  displayName : String
  dataProviderType : String
  configurations : AccountConfigs
deriving DecidableEq, Repr

/-- One `{key, configType, value}` property entry of the BYOS payload. -/
structure PropEntry where
  key : String
  configType : String
  value : String
deriving DecidableEq, Repr

/-- The JSON body POSTed to `/api/query/v1/byos/accounts`. -/
structure ByosPayload where
  engine : String
  friendlyName : PropEntry
  description : PropEntry
  serviceAccountId : PropEntry
  AUTH_METHOD : PropEntry
  ADMIN_AUTH_METHOD : PropEntry
deriving DecidableEq, Repr

/-- A warehouse descriptor as returned by the listing endpoint.  Fields are
`Option String` because the script reads every one of them with `dict.get`,
which yields `None` when the key is absent. -/
structure Warehouse where
  warehouse : Option String
  device : Option String
  deviceName : Option String
  instanceSize : Option String
  warehouseSizeFriendlyName : Option String
deriving DecidableEq, Repr

/-- One element of the JSON array PUT to the warehouses endpoint. -/
structure AssignEntry where
  deviceName : Option String
  warehouse : Option String
  device : Option String
  instanceSize : Option String
  warehouseSizeFriendlyName : Option String
  activities : List String
deriving DecidableEq, Repr

/-- An outbound HTTP request issued by the script. -/
inductive Request where
  | postAccount (url : String) (body : AccountPayload)
  | postByos (url : String) (body : ByosPayload)
  | getWarehouses (url : String)
  | putWarehouses (url : String) (body : List AssignEntry)
deriving DecidableEq, Repr

/-- Is this request a POST to the account-creation endpoint? -/
def Request.isAccountPost : Request → Bool
  | .postAccount _ _ => true
  | _ => false

/-- Is this request directed at a warehouse endpoint (GET or PUT)? -/
def Request.isWarehouseRequest : Request → Bool
  | .getWarehouses _ => true
  | .putWarehouses _ _ => true
  | _ => false

/-- Is this request a PUT to the warehouses endpoint? -/
def Request.isWarehousePut : Request → Bool
  | .putWarehouses _ _ => true
  | _ => false

/-- Is this request a POST to the BYOS integration-creation endpoint? -/
def Request.isByosPost : Request → Bool
  | .postByos _ _ => true
  | _ => false

/-- One `print(...)` call.  JSON dumps of structured payloads are kept
structured (the script prints them via `json.dumps`). -/
inductive OutEvent where
  | line (s : String)
  | accountDump (p : AccountPayload)
  | byosDump (p : ByosPayload)
  | assignDump (p : List AssignEntry)
deriving DecidableEq, Repr

/-- The module-level configuration constants of the script, plus the
`access_token` environment variable read by `os.getenv`. -/
structure Config where
  INSTANCE : String
  ACCOUNT_NAME : String
  DISPLAY_NAME : String
  SNOWFLAKE_ACCOUNT : String
  SNOWFLAKE_USERNAME : String
  SNOWFLAKE_ROLE : String
  PRIVATE_KEY_FILE : String
  PASSPHRASE : String
  INTEGRATION_FRIENDLY_NAME : String
  INTEGRATION_DESCRIPTION : String
  WAREHOUSE_NAME : String
  WAREHOUSE_ACTIVITIES : List String
  EXISTING_ACCOUNT_ID : String
  access_token : Option String
deriving DecidableEq, Repr

/-- The external world: private-key file contents (`none` models an
unreadable/missing file, on which `get_private_key_contents` exits 1), and
the responses the service returns to the four calls, together with the
parsed pieces of JSON the script extracts from them. -/
structure World where
  keyFile : Option String
  accountResp : HttpResponse
  accountId : Option String
  byosResp : HttpResponse
  byosId : Option String
  listResp : HttpResponse
  listJson : List Warehouse
  assignResp : HttpResponse
deriving DecidableEq, Repr

/-- Python's `str()` applied to an optional string (`str(None) = "None"`),
as used when the script interpolates a `dict.get` result into an f-string. -/
def pyStrOpt : Option String → String
  | none => "None"
  | some s => s

/-- Python truthiness of a value that is either a string or `None`
(`if not account_id: ...`): `None` and `""` are falsy. -/
def pyTruthy : Option String → Bool
  | none => false
  | some s => !s.isEmpty

/-- Return value of a modelled function: its print events, the HTTP
requests it issued, and its Python return value. -/
structure FnOut (α : Type) where
  printed : List OutEvent
  requests : List Request
  value : α
deriving DecidableEq, Repr

/-- `"=" * 60`, the banner separator printed by the driver. -/
def eq60 : String := String.mk (List.replicate 60 '=')

/-- The account-creation URL `https://{INSTANCE}/api/data/v1/accounts`. -/
def accountsUrl (cfg : Config) : String :=
  "https://" ++ cfg.INSTANCE ++ "/api/data/v1/accounts"

/-- The BYOS-integration URL `https://{INSTANCE}/api/query/v1/byos/accounts`. -/
def byosAccountsUrl (cfg : Config) : String :=
  "https://" ++ cfg.INSTANCE ++ "/api/query/v1/byos/accounts"

/-- The warehouses URL `https://{INSTANCE}/api/query/v1/byos/warehouses/{byos_id}`,
used both by the GET listing and by the PUT assignment. -/
def warehousesUrl (cfg : Config) (byos_id : String) : String :=
  "https://" ++ cfg.INSTANCE ++ "/api/query/v1/byos/warehouses/" ++ byos_id

/-- The sentinel the script substitutes for the private key in the debug
copy of the account payload. -/
def hiddenKeySentinel : String := "[PRIVATE KEY CONTENTS HIDDEN]"

/-- The account-creation payload built from the configuration and the
private-key file contents (lines 94–105 of the script). -/
def accountPayload (cfg : Config) (private_key : String) : AccountPayload :=
  { name := cfg.ACCOUNT_NAME
    displayName := cfg.DISPLAY_NAME
    dataProviderType := "snowflakekeypairauthentication"
    configurations :=
      { account := cfg.SNOWFLAKE_ACCOUNT
        username := cfg.SNOWFLAKE_USERNAME
        privateKey := private_key
        passPhrase := cfg.PASSPHRASE
        role := cfg.SNOWFLAKE_ROLE } }

/-- The redacted debug copy of the account payload (lines 119–121): the
script copies the payload dict and the nested `configurations` dict before
overwriting `privateKey`, so the original payload is untouched. -/
def debugAccountPayload (cfg : Config) (private_key : String) : AccountPayload :=
  let payload := accountPayload cfg private_key
  { payload with configurations :=
      { payload.configurations with privateKey := hiddenKeySentinel } }

/-- `create_snowflake_account()` (script lines 75–136).  Validates the
configuration (exiting 1 on a missing `INSTANCE` or `PRIVATE_KEY_FILE`),
reads the private-key file (exit 1 on failure), POSTs the payload and
returns the response.  `.error 1` models `exit(1)`. -/
def create_snowflake_account (cfg : Config) (keyFile : Option String)
    (resp : HttpResponse) : FnOut (Except Nat HttpResponse) :=
  if cfg.INSTANCE = "" then
    { printed := [.line "Error: INSTANCE is required. Please set it in the configuration section."]
      requests := [], value := .error 1 }
  else if cfg.PRIVATE_KEY_FILE = "" then
    { printed := [.line "Error: PRIVATE_KEY_FILE is required. Please set it in the configuration section."]
      requests := [], value := .error 1 }
  else
    match keyFile with
    | none =>
      { printed := [.line ("Error: Private key file not found at '" ++ cfg.PRIVATE_KEY_FILE ++ "'")]
        requests := [], value := .error 1 }
    | some private_key =>
      let url := accountsUrl cfg
      let payload := accountPayload cfg private_key
      { printed :=
          [.line (pyStrOpt cfg.access_token),
           .line ("Creating Snowflake account '" ++ cfg.DISPLAY_NAME ++ "' on " ++ cfg.INSTANCE ++ "..."),
           .line ("URL: " ++ url),
           .line "Payload (private key truncated):",
           .accountDump (debugAccountPayload cfg private_key),
           .line ("\nStatus Code: " ++ toString resp.status)] ++
          (if resp.status = 200 ∨ resp.status = 201 then
            [.line "Success! Account created.", .line resp.text]
          else
            [.line "Error creating account:", .line resp.text])
        requests := [.postAccount url payload]
        value := .ok resp }

/-- The BYOS-integration payload (script lines 163–192). -/
def byosPayload (friendly_name description account_id : String) : ByosPayload :=
  { engine := "SNOWFLAKE"
    friendlyName := ⟨"friendlyName", "CONFIG", friendly_name⟩
    description := ⟨"description", "CONFIG", description⟩
    serviceAccountId := ⟨"serviceAccountId", "CONFIG", account_id⟩
    AUTH_METHOD := ⟨"AUTH_METHOD", "CONFIG", "KEY_PAIR"⟩
    ADMIN_AUTH_METHOD := ⟨"ADMIN_AUTH_METHOD", "CONFIG", "KEY_PAIR"⟩ }

/-- `create_byos_integration(account_id, friendly_name=None, description="")`
(script lines 139–218).  Defaults the friendly name to
`INTEGRATION_FRIENDLY_NAME` (or `DISPLAY_NAME` when that is empty) and the
description to `INTEGRATION_DESCRIPTION`, POSTs the payload, and returns
the response. -/
def create_byos_integration (cfg : Config) (account_id : String)
    (friendly_name : Option String) (description : String)
    (resp : HttpResponse) : FnOut HttpResponse :=
  let fn := match friendly_name with
    | some f => f
    | none => if cfg.INTEGRATION_FRIENDLY_NAME = "" then cfg.DISPLAY_NAME
              else cfg.INTEGRATION_FRIENDLY_NAME
  let desc := if description = "" then cfg.INTEGRATION_DESCRIPTION else description
  let url := byosAccountsUrl cfg
  let payload := byosPayload fn desc account_id
  { printed :=
      [.line ("\nCreating BYOS integration '" ++ fn ++ "' on " ++ cfg.INSTANCE ++ "..."),
       .line ("URL: " ++ url),
       .line "Payload:",
       .byosDump payload,
       .line ("\nStatus Code: " ++ toString resp.status)] ++
      (if resp.status = 200 ∨ resp.status = 201 then
        [.line "Success! BYOS integration created.", .line resp.text]
      else
        [.line "Error creating BYOS integration:", .line resp.text])
    requests := [.postByos url payload]
    value := resp }

/-- `get_available_warehouses(byos_id)` (script lines 221–252).  GETs the
warehouse listing; on HTTP 200 returns the parsed JSON list, otherwise
returns `None`. -/
def get_available_warehouses (cfg : Config) (byos_id : String)
    (resp : HttpResponse) (respJson : List Warehouse) :
    FnOut (Option (List Warehouse)) :=
  let url := warehousesUrl cfg byos_id
  { printed :=
      [.line ("\nFetching available warehouses for BYOS integration '" ++ byos_id ++ "'..."),
       .line ("URL: " ++ url),
       .line ("\nStatus Code: " ++ toString resp.status)] ++
      (if resp.status = 200 then
        [.line ("Found " ++ toString respJson.length ++ " available warehouses")]
      else
        [.line "Error fetching warehouses:", .line resp.text])
    requests := [.getWarehouses url]
    value := if resp.status = 200 then some respJson else none }

/-- The linear scan of script lines 278–282: walk the listing in order and
stop at the first descriptor whose `warehouse` field equals the requested
name (`wh.get("warehouse") == warehouse_name`; an absent field reads as
`None`, which is never equal to a string). -/
def findMatch (warehouse_name : String) : List Warehouse → Option Warehouse
  | [] => none
  | wh :: rest =>
    if wh.warehouse = some warehouse_name then some wh
    else findMatch warehouse_name rest

/-- The single-element PUT payload built from the matched descriptor
(script lines 299–308): every descriptor field is copied verbatim from the
GET response; only `activities` comes from the caller (or the configured
default). -/
def assignPayload (m : Warehouse) (activities : List String) : List AssignEntry :=
  [{ deviceName := m.deviceName
     warehouse := m.warehouse
     device := m.device
     instanceSize := m.instanceSize
     warehouseSizeFriendlyName := m.warehouseSizeFriendlyName
     activities := activities }]

/-- `assign_warehouse_to_integration(byos_id, warehouse_name, activities=None)`
(script lines 255–331).  Lists the warehouses, scans for the first match by
name, and PUTs the assignment; returns `None` when the listing fails or no
descriptor matches (in which case the available names are enumerated). -/
def assign_warehouse_to_integration (cfg : Config) (byos_id warehouse_name : String)
    (activities : Option (List String)) (listResp : HttpResponse)
    (listJson : List Warehouse) (assignResp : HttpResponse) :
    FnOut (Option HttpResponse) :=
  let acts := activities.getD cfg.WAREHOUSE_ACTIVITIES
  let g := get_available_warehouses cfg byos_id listResp listJson
  match g.value with
  | none =>
    { printed := g.printed ++ [.line "Error: Could not retrieve available warehouses"]
      requests := g.requests, value := none }
  | some warehouses =>
    match findMatch warehouse_name warehouses with
    | none =>
      { printed := g.printed ++
          [.line ("\nError: Warehouse '" ++ warehouse_name ++ "' not found in available warehouses."),
           .line "Available warehouses:"] ++
          warehouses.map (fun wh => .line ("  - " ++ pyStrOpt wh.warehouse))
        requests := g.requests, value := none }
    | some m =>
      let url := warehousesUrl cfg byos_id
      let payload := assignPayload m acts
      { printed := g.printed ++
          [.line ("\nFound matching warehouse: " ++ warehouse_name),
           .line ("  Device: " ++ pyStrOpt m.device),
           .line ("  Size: " ++ pyStrOpt m.warehouseSizeFriendlyName),
           .line ("\nAssigning warehouse '" ++ warehouse_name ++ "' to BYOS integration..."),
           .line ("URL: " ++ url),
           .line "Payload:",
           .assignDump payload,
           .line ("\nStatus Code: " ++ toString assignResp.status)] ++
          (if assignResp.status = 200 ∨ assignResp.status = 201 then
            [.line "Success! Warehouse assigned to integration.", .line assignResp.text]
          else
            [.line "Error assigning warehouse:", .line assignResp.text])
        requests := g.requests ++ [.putWarehouses url payload]
        value := some assignResp }

/-- Result of a full run of the script: its exit status, the requests it
issued, and everything it printed, in order. -/
structure MainResult where
  exitCode : Nat
  requests : List Request
  printed : List OutEvent
deriving DecidableEq, Repr

/-- The account phase of the driver (script lines 339–360): either adopt
`EXISTING_ACCOUNT_ID` directly, or create an account and extract the `id`
from a 200/201 response, exiting 1 on any failure.  The value is the
account id or the exit status. -/
def accountPhase (cfg : Config) (w : World) : FnOut (Except Nat String) :=
  if cfg.EXISTING_ACCOUNT_ID ≠ "" then
    { printed :=
        [.line eq60, .line "USING EXISTING ACCOUNT", .line eq60,
         .line ("Using existing account ID: " ++ cfg.EXISTING_ACCOUNT_ID)]
      requests := [], value := .ok cfg.EXISTING_ACCOUNT_ID }
  else
    let r := create_snowflake_account cfg w.keyFile w.accountResp
    match r.value with
    | .error c => { printed := r.printed, requests := r.requests, value := .error c }
    | .ok resp =>
      if resp.status = 200 ∨ resp.status = 201 then
        if pyTruthy w.accountId then
          { printed := r.printed, requests := r.requests
            value := .ok (w.accountId.getD "") }
        else
          { printed := r.printed ++ [.line "Error: Could not extract account ID from response"]
            requests := r.requests, value := .error 1 }
      else
        { printed := r.printed ++
            [.line "\nSkipping BYOS integration creation due to account creation failure."]
          requests := r.requests, value := .error 1 }

/-- The `if __name__ == "__main__"` driver (script lines 338–381): account
phase, then BYOS integration creation, then — only when the integration
succeeded AND a warehouse name is configured — warehouse assignment.
Failures after the account phase are printed but the script still runs to
its end, i.e. exits 0. -/
def mainRun (cfg : Config) (w : World) : MainResult :=
  match (accountPhase cfg w).value with
  | .error c =>
    { exitCode := c, requests := (accountPhase cfg w).requests
      printed := (accountPhase cfg w).printed }
  | .ok account_id =>
    let p1 := accountPhase cfg w
    let b := create_byos_integration cfg account_id none "" w.byosResp
    let printed2 := p1.printed ++
      [.line ("\n" ++ eq60), .line "CREATING BYOS INTEGRATION", .line eq60] ++ b.printed
    let reqs2 := p1.requests ++ b.requests
    if (w.byosResp.status = 200 ∨ w.byosResp.status = 201) ∧ cfg.WAREHOUSE_NAME ≠ "" then
      if pyTruthy w.byosId then
        let a := assign_warehouse_to_integration cfg (w.byosId.getD "") cfg.WAREHOUSE_NAME
          none w.listResp w.listJson w.assignResp
        { exitCode := 0
          requests := reqs2 ++ a.requests
          printed := printed2 ++
            [.line ("\n" ++ eq60), .line "ASSIGNING WAREHOUSE TO INTEGRATION", .line eq60] ++
            a.printed }
      else
        { exitCode := 0, requests := reqs2
          printed := printed2 ++ [.line "Error: Could not extract BYOS integration ID from response"] }
    else if cfg.WAREHOUSE_NAME = "" then
      { exitCode := 0, requests := reqs2
        printed := printed2 ++ [.line "\nNo WAREHOUSE_NAME configured - skipping warehouse assignment."] }
    else
      { exitCode := 0, requests := reqs2, printed := printed2 }

/-! ### Concrete example data, used to instantiate the theorems below. -/

/-- A fully filled-in configuration that creates a new account and assigns
the warehouse `WH_SMALL`. -/
def exCfg : Config :=
  { INSTANCE := "acme.example.com"
    ACCOUNT_NAME := "sf-account"
    DISPLAY_NAME := "SF Account"
    SNOWFLAKE_ACCOUNT := "xy12345"
    SNOWFLAKE_USERNAME := "svc_user"
    SNOWFLAKE_ROLE := "SYSADMIN"
    PRIVATE_KEY_FILE := "/keys/rsa_key.p8"
    PASSPHRASE := ""
    INTEGRATION_FRIENDLY_NAME := ""
    INTEGRATION_DESCRIPTION := ""
    WAREHOUSE_NAME := "WH_SMALL"
    WAREHOUSE_ACTIVITIES := ["query", "index", "dataflow"]
    EXISTING_ACCOUNT_ID := ""
    access_token := some "tok-123" }

/-- A 200 response. -/
def ok200 : HttpResponse := ⟨200, "{}"⟩

/-- A 500 response. -/
def err500 : HttpResponse := ⟨500, "internal error"⟩

/-- A warehouse named `WH_BIG`. -/
def exWh1 : Warehouse :=
  ⟨some "WH_BIG", some "dev-1", some "device-one", some "XL", some "X-Large"⟩

/-- A warehouse named `WH_SMALL`. -/
def exWh2 : Warehouse :=
  ⟨some "WH_SMALL", some "dev-2", some "device-two", some "S", some "Small"⟩

/-- A second warehouse also named `WH_SMALL`, a duplicate of `exWh2`'s name
with different metadata. -/
def exWh3 : Warehouse :=
  ⟨some "WH_SMALL", some "dev-3", some "device-three", some "M", some "Medium"⟩

/-- A descriptor lacking the `warehouse` key entirely. -/
def exWhNoName : Warehouse :=
  ⟨none, some "dev-4", some "device-four", some "L", some "Large"⟩

/-- A configuration that supplies a pre-existing account id. -/
def cfgExisting : Config := { exCfg with EXISTING_ACCOUNT_ID := "account-42" }

/-- A configuration with no warehouse name. -/
def cfgNoWh : Config := { exCfg with WAREHOUSE_NAME := "" }

/-- A world in which the BYOS integration-creation call fails with 500
while everything else succeeds. -/
def wByosFails : World :=
  { keyFile := some "PEMKEY"
    accountResp := ok200
    accountId := some "acct-id-1"
    byosResp := err500
    byosId := none
    listResp := ok200
    listJson := [exWh1, exWh2]
    assignResp := ok200 }

/-- A world in which every call succeeds. -/
def wAllOk : World :=
  { keyFile := some "PEMKEY"
    accountResp := ok200
    accountId := some "acct-id-1"
    byosResp := ok200
    byosId := some "byos-id-1"
    listResp := ok200
    listJson := [exWh1, exWh2]
    assignResp := ok200 }

/-- A world in which account creation returns 202 (a 2xx status the script
does not treat as success) with a body lacking `id`. -/
def w202NoId : World := { wAllOk with accountResp := ⟨202, "accepted"⟩, accountId := none }

/-- A world in which account creation returns 200 but the body lacks `id`. -/
def wNoId : World := { wAllOk with accountId := none }

/-- Does the account phase of the driver fail (and hence the process exit
with status 1)?  Holds exactly when no existing account id is supplied and
either a configuration check fails, the key file is unreadable, the
account-creation response is not 200/201, or its body lacks a truthy `id`. -/
def accountPhaseFails (cfg : Config) (w : World) : Prop :=
  cfg.EXISTING_ACCOUNT_ID = "" ∧
    (cfg.INSTANCE = "" ∨ cfg.PRIVATE_KEY_FILE = "" ∨ w.keyFile = none ∨
     ¬(w.accountResp.status = 200 ∨ w.accountResp.status = 201) ∨
     pyTruthy w.accountId = false)

instance accountPhaseFailsDecidable (cfg : Config) (w : World) :
    Decidable (accountPhaseFails cfg w) := by
  unfold accountPhaseFails
  infer_instance

/-! ### Helper lemmas -/

theorem findMatch_of_first (name : String) (pre : List Warehouse) (wh : Warehouse)
    (post : List Warehouse) (hpre : ∀ w ∈ pre, w.warehouse ≠ some name)
    (hwh : wh.warehouse = some name) :
    findMatch name (pre ++ wh :: post) = some wh := by
  induction pre with
  | nil => simp [findMatch, hwh]
  | cons a t ih =>
    have ha : a.warehouse ≠ some name := hpre a (List.mem_cons_self a t)
    simp only [List.cons_append, findMatch, if_neg ha]
    exact ih fun w hw => hpre w (List.mem_cons_of_mem a hw)

theorem findMatch_eq_none (name : String) (l : List Warehouse)
    (h : ∀ w ∈ l, w.warehouse ≠ some name) :
    findMatch name l = none := by
  induction l with
  | nil => rfl
  | cons a t ih =>
    have ha : a.warehouse ≠ some name := h a (List.mem_cons_self a t)
    simp only [findMatch, if_neg ha]
    exact ih fun w hw => h w (List.mem_cons_of_mem a hw)

theorem findMatch_skip_absent (name : String) (pre : List Warehouse) (wh : Warehouse)
    (post : List Warehouse) (hwh : wh.warehouse = none) :
    findMatch name (pre ++ wh :: post) = findMatch name (pre ++ post) := by
  induction pre with
  | nil =>
    have : wh.warehouse ≠ some name := by simp [hwh]
    simp [findMatch, if_neg this]
  | cons a t ih =>
    by_cases ha : a.warehouse = some name
    · simp [findMatch, ha]
    · simp only [List.cons_append, findMatch, if_neg ha]
      exact ih

/-- Behaviour of `assign_warehouse_to_integration` when the listing
succeeds but no descriptor matches: a single GET is issued (no PUT), the
error output enumerates every descriptor's `warehouse` field, and the
function returns `None`. -/
theorem assign_notFound_spec (cfg : Config) (byos_id name : String)
    (acts : Option (List String)) (listResp : HttpResponse)
    (listJson : List Warehouse) (assignResp : HttpResponse)
    (hok : listResp.status = 200) (hfm : findMatch name listJson = none) :
    (assign_warehouse_to_integration cfg byos_id name acts listResp listJson assignResp).requests
      = [.getWarehouses (warehousesUrl cfg byos_id)] ∧
    (assign_warehouse_to_integration cfg byos_id name acts listResp listJson assignResp).printed
      = (get_available_warehouses cfg byos_id listResp listJson).printed ++
        [.line ("\nError: Warehouse '" ++ name ++ "' not found in available warehouses."),
         .line "Available warehouses:"] ++
        listJson.map (fun wh => .line ("  - " ++ pyStrOpt wh.warehouse)) ∧
    (assign_warehouse_to_integration cfg byos_id name acts listResp listJson assignResp).value
      = none := by
  refine ⟨?_, ?_, ?_⟩ <;>
    simp [assign_warehouse_to_integration, get_available_warehouses, hok, hfm]

/-- C2: for every warehouse list and requested name,
`assign_warehouse_to_integration` selects the first descriptor in listing
order whose `warehouse` field equals the requested name; every later
descriptor (including duplicates of the same name) is ignored, and the PUT
payload is built from that first match. -/
theorem assign_selects_first_match (cfg : Config) (byos_id name : String)
    (acts : Option (List String)) (listResp assignResp : HttpResponse)
    (pre : List Warehouse) (wh : Warehouse) (post : List Warehouse)
    (hok : listResp.status = 200)
    (hpre : ∀ w ∈ pre, w.warehouse ≠ some name)
    (hwh : wh.warehouse = some name) :
    findMatch name (pre ++ wh :: post) = some wh ∧
    (assign_warehouse_to_integration cfg byos_id name acts listResp
        (pre ++ wh :: post) assignResp).requests
      = [.getWarehouses (warehousesUrl cfg byos_id),
         .putWarehouses (warehousesUrl cfg byos_id)
           (assignPayload wh (acts.getD cfg.WAREHOUSE_ACTIVITIES))] := by
  have hfm := findMatch_of_first name pre wh post hpre hwh
  refine ⟨hfm, ?_⟩
  simp [assign_warehouse_to_integration, get_available_warehouses, hok, hfm]

/-- Witness for C2: with the listing `[exWh1, exWh2, exWh3]`, where `exWh2`
and `exWh3` are both named `WH_SMALL`, the first occurrence `exWh2` is
selected and the later duplicate is ignored. -/
theorem assign_selects_first_match_witness :
    findMatch "WH_SMALL" ([exWh1] ++ exWh2 :: [exWh3]) = some exWh2 ∧
    (assign_warehouse_to_integration exCfg "byos-1" "WH_SMALL" none ok200
        ([exWh1] ++ exWh2 :: [exWh3]) ok200).requests
      = [.getWarehouses (warehousesUrl exCfg "byos-1"),
         .putWarehouses (warehousesUrl exCfg "byos-1")
           (assignPayload exWh2 ((none : Option (List String)).getD exCfg.WAREHOUSE_ACTIVITIES))] :=
  assign_selects_first_match exCfg "byos-1" "WH_SMALL" none ok200 ok200
    [exWh1] exWh2 [exWh3] (by decide) (by decide) (by decide)

/-- C5: when no descriptor's `warehouse` field equals the requested name,
`assign_warehouse_to_integration` issues no PUT (only the listing GET) and
its error output enumerates the `warehouse` field of every descriptor. -/
theorem assign_no_match_enumerates_and_skips_put (cfg : Config) (byos_id name : String)
    (acts : Option (List String)) (listResp : HttpResponse)
    (listJson : List Warehouse) (assignResp : HttpResponse)
    (hok : listResp.status = 200)
    (hno : ∀ w ∈ listJson, w.warehouse ≠ some name) :
    (∀ r ∈ (assign_warehouse_to_integration cfg byos_id name acts listResp
        listJson assignResp).requests, Request.isWarehousePut r = false) ∧
    (assign_warehouse_to_integration cfg byos_id name acts listResp listJson assignResp).printed
      = (get_available_warehouses cfg byos_id listResp listJson).printed ++
        [.line ("\nError: Warehouse '" ++ name ++ "' not found in available warehouses."),
         .line "Available warehouses:"] ++
        listJson.map (fun wh => .line ("  - " ++ pyStrOpt wh.warehouse)) := by
  have hfm := findMatch_eq_none name listJson hno
  obtain ⟨hreq, hpr, _⟩ :=
    assign_notFound_spec cfg byos_id name acts listResp listJson assignResp hok hfm
  refine ⟨?_, hpr⟩
  intro r hr
  rw [hreq] at hr
  rcases List.mem_singleton.1 hr with rfl
  rfl

/-- Witness for C5: requesting `WH_MISSING` against a listing of
`[exWh1, exWh2]` issues only the GET and enumerates both names. -/
theorem assign_no_match_enumerates_and_skips_put_witness :
    (∀ r ∈ (assign_warehouse_to_integration exCfg "byos-1" "WH_MISSING" none ok200
        [exWh1, exWh2] ok200).requests, Request.isWarehousePut r = false) ∧
    (assign_warehouse_to_integration exCfg "byos-1" "WH_MISSING" none ok200
        [exWh1, exWh2] ok200).printed
      = (get_available_warehouses exCfg "byos-1" ok200 [exWh1, exWh2]).printed ++
        [.line ("\nError: Warehouse '" ++ "WH_MISSING" ++ "' not found in available warehouses."),
         .line "Available warehouses:"] ++
        [exWh1, exWh2].map (fun wh => .line ("  - " ++ pyStrOpt wh.warehouse)) :=
  assign_no_match_enumerates_and_skips_put exCfg "byos-1" "WH_MISSING" none ok200
    [exWh1, exWh2] ok200 (by decide) (by decide)

/-- C8: on a match, the PUT payload is a single-element list whose
descriptor fields are copied verbatim from the matched descriptor, with
only `activities` supplied by the caller (or the configured default). -/
theorem assign_payload_copied_verbatim (cfg : Config) (byos_id name : String)
    (acts : Option (List String)) (listResp : HttpResponse)
    (listJson : List Warehouse) (assignResp : HttpResponse) (m : Warehouse)
    (hok : listResp.status = 200)
    (hm : findMatch name listJson = some m) :
    (assign_warehouse_to_integration cfg byos_id name acts listResp listJson assignResp).requests
      = [.getWarehouses (warehousesUrl cfg byos_id),
         .putWarehouses (warehousesUrl cfg byos_id)
           [{ deviceName := m.deviceName
              warehouse := m.warehouse
              device := m.device
              instanceSize := m.instanceSize
              warehouseSizeFriendlyName := m.warehouseSizeFriendlyName
              activities := acts.getD cfg.WAREHOUSE_ACTIVITIES }]] := by
  simp [assign_warehouse_to_integration, get_available_warehouses, hok, hm, assignPayload]

/-- Witness for C8: with caller-supplied activities `["query"]` and match
`exWh2`, the PUT body carries exactly `exWh2`'s fields plus `["query"]`. -/
theorem assign_payload_copied_verbatim_witness :
    (assign_warehouse_to_integration exCfg "byos-1" "WH_SMALL" (some ["query"]) ok200
        [exWh1, exWh2] ok200).requests
      = [.getWarehouses (warehousesUrl exCfg "byos-1"),
         .putWarehouses (warehousesUrl exCfg "byos-1")
           [{ deviceName := exWh2.deviceName
              warehouse := exWh2.warehouse
              device := exWh2.device
              instanceSize := exWh2.instanceSize
              warehouseSizeFriendlyName := exWh2.warehouseSizeFriendlyName
              activities := (some ["query"]).getD exCfg.WAREHOUSE_ACTIVITIES }]] :=
  assign_payload_copied_verbatim exCfg "byos-1" "WH_SMALL" (some ["query"]) ok200
    [exWh1, exWh2] ok200 exWh2 (by decide) (by decide)

/-- C9: `assign_warehouse_to_integration` returns the same value (`None`)
both when the warehouse listing fails with a non-200 status and when the
listing succeeds but no descriptor matches, so the caller cannot tell the
two failures apart from the return value. -/
theorem assign_conflates_listing_failure_and_not_found (cfg : Config)
    (byos_id name : String) (acts : Option (List String))
    (listResp : HttpResponse) (listJson : List Warehouse) (assignResp : HttpResponse) :
    (listResp.status ≠ 200 →
      (assign_warehouse_to_integration cfg byos_id name acts listResp listJson assignResp).value
        = none) ∧
    (listResp.status = 200 → (∀ w ∈ listJson, w.warehouse ≠ some name) →
      (assign_warehouse_to_integration cfg byos_id name acts listResp listJson assignResp).value
        = none) := by
  constructor
  · intro h
    simp [assign_warehouse_to_integration, get_available_warehouses, h]
  · intro h hno
    exact (assign_notFound_spec cfg byos_id name acts listResp listJson assignResp h
      (findMatch_eq_none name listJson hno)).2.2

/-- Witness for C9: a 500 listing response and a successful listing with no
match both yield the return value `None`. -/
theorem assign_conflates_listing_failure_and_not_found_witness :
    (assign_warehouse_to_integration exCfg "byos-1" "WH_SMALL" none err500
        [exWh1, exWh2] ok200).value = none ∧
    (assign_warehouse_to_integration exCfg "byos-1" "WH_MISSING" none ok200
        [exWh1, exWh2] ok200).value = none :=
  ⟨(assign_conflates_listing_failure_and_not_found exCfg "byos-1" "WH_SMALL" none err500
      [exWh1, exWh2] ok200).1 (by decide),
   (assign_conflates_listing_failure_and_not_found exCfg "byos-1" "WH_MISSING" none ok200
      [exWh1, exWh2] ok200).2 (by decide) (by decide)⟩

/-- C10: a descriptor lacking the `warehouse` key never makes the scan
fail: it is silently skipped by the match (its absent field reads as
`None`, never equal to the requested non-empty name), and in the
not-found enumeration it is printed as `None`. -/
theorem assign_skips_descriptor_without_warehouse_key (cfg : Config)
    (byos_id name : String) (acts : Option (List String))
    (listResp : HttpResponse) (pre : List Warehouse) (wh : Warehouse)
    (post : List Warehouse) (assignResp : HttpResponse)
    (hok : listResp.status = 200) (_hname : name ≠ "")
    (hwh : wh.warehouse = none) :
    findMatch name (pre ++ wh :: post) = findMatch name (pre ++ post) ∧
    ((∀ w ∈ pre ++ post, w.warehouse ≠ some name) →
      OutEvent.line "  - None" ∈
        (assign_warehouse_to_integration cfg byos_id name acts listResp
          (pre ++ wh :: post) assignResp).printed ∧
      (assign_warehouse_to_integration cfg byos_id name acts listResp
          (pre ++ wh :: post) assignResp).value = none) := by
  refine ⟨findMatch_skip_absent name pre wh post hwh, fun hno => ?_⟩
  have hall : ∀ w ∈ pre ++ wh :: post, w.warehouse ≠ some name := by
    intro w hw
    rcases List.mem_append.1 hw with h1 | h2
    · exact hno w (List.mem_append.2 (Or.inl h1))
    · rcases List.mem_cons.1 h2 with rfl | h3
      · simp [hwh]
      · exact hno w (List.mem_append.2 (Or.inr h3))
  have hfm := findMatch_eq_none name _ hall
  obtain ⟨_, hpr, hval⟩ :=
    assign_notFound_spec cfg byos_id name acts listResp (pre ++ wh :: post) assignResp hok hfm
  refine ⟨?_, hval⟩
  rw [hpr]
  have hmem : wh ∈ pre ++ wh :: post :=
    List.mem_append.2 (Or.inr (List.mem_cons_self wh post))
  have hmap : OutEvent.line ("  - " ++ pyStrOpt wh.warehouse)
      ∈ (pre ++ wh :: post).map (fun w => OutEvent.line ("  - " ++ pyStrOpt w.warehouse)) :=
    List.mem_map_of_mem _ hmem
  rw [hwh] at hmap
  exact List.mem_append.2 (Or.inr hmap)

/-- Witness for C10: with the listing `[exWh1, exWhNoName]` and requested
name `WH_MISSING`, the keyless descriptor is skipped and printed as
`None`. -/
theorem assign_skips_descriptor_without_warehouse_key_witness :
    findMatch "WH_MISSING" ([exWh1] ++ exWhNoName :: []) = findMatch "WH_MISSING" ([exWh1] ++ []) ∧
    (OutEvent.line "  - None" ∈
      (assign_warehouse_to_integration exCfg "byos-1" "WH_MISSING" none ok200
        ([exWh1] ++ exWhNoName :: []) ok200).printed ∧
    (assign_warehouse_to_integration exCfg "byos-1" "WH_MISSING" none ok200
        ([exWh1] ++ exWhNoName :: []) ok200).value = none) :=
  ⟨(assign_skips_descriptor_without_warehouse_key exCfg "byos-1" "WH_MISSING" none ok200
      [exWh1] exWhNoName [] ok200 (by decide) (by decide) (by decide)).1,
   (assign_skips_descriptor_without_warehouse_key exCfg "byos-1" "WH_MISSING" none ok200
      [exWh1] exWhNoName [] ok200 (by decide) (by decide) (by decide)).2 (by decide)⟩

/-! ### Driver-level helper lemmas -/

theorem create_account_requests_are_accountPosts (cfg : Config) (kf : Option String)
    (resp : HttpResponse) :
    ∀ r ∈ (create_snowflake_account cfg kf resp).requests,
      Request.isAccountPost r = true := by
  intro r hr
  by_cases hi : cfg.INSTANCE = ""
  · simp [create_snowflake_account, hi] at hr
  · by_cases hp : cfg.PRIVATE_KEY_FILE = ""
    · simp [create_snowflake_account, hi, hp] at hr
    · cases hk : kf with
      | none => simp [create_snowflake_account, hi, hp, hk] at hr
      | some k =>
        simp [create_snowflake_account, hi, hp, hk] at hr
        subst hr
        rfl

theorem accountPhase_value (cfg : Config) (w : World) :
    (accountPhase cfg w).value =
      if accountPhaseFails cfg w then Except.error 1
      else Except.ok (if cfg.EXISTING_ACCOUNT_ID = "" then w.accountId.getD ""
                      else cfg.EXISTING_ACCOUNT_ID) := by
  by_cases he : cfg.EXISTING_ACCOUNT_ID = ""
  · by_cases hi : cfg.INSTANCE = ""
    · simp [accountPhase, create_snowflake_account, accountPhaseFails, he, hi]
    · by_cases hp : cfg.PRIVATE_KEY_FILE = ""
      · simp [accountPhase, create_snowflake_account, accountPhaseFails, he, hi, hp]
      · cases hk : w.keyFile with
        | none => simp [accountPhase, create_snowflake_account, accountPhaseFails, he, hi, hp, hk]
        | some k =>
          by_cases hs : w.accountResp.status = 200 ∨ w.accountResp.status = 201
          · cases ht : pyTruthy w.accountId <;>
              simp [accountPhase, create_snowflake_account, accountPhaseFails,
                he, hi, hp, hk, hs, ht]
          · simp [accountPhase, create_snowflake_account, accountPhaseFails,
              he, hi, hp, hk, hs]
  · simp [accountPhase, accountPhaseFails, he]

theorem accountPhase_requests_are_accountPosts (cfg : Config) (w : World) :
    ∀ r ∈ (accountPhase cfg w).requests, Request.isAccountPost r = true := by
  intro r hr
  by_cases he : cfg.EXISTING_ACCOUNT_ID = ""
  · by_cases hi : cfg.INSTANCE = ""
    · simp [accountPhase, create_snowflake_account, he, hi] at hr
    · by_cases hp : cfg.PRIVATE_KEY_FILE = ""
      · simp [accountPhase, create_snowflake_account, he, hi, hp] at hr
      · cases hk : w.keyFile with
        | none => simp [accountPhase, create_snowflake_account, he, hi, hp, hk] at hr
        | some k =>
          by_cases hs : w.accountResp.status = 200 ∨ w.accountResp.status = 201
          · cases ht : pyTruthy w.accountId <;>
              simp [accountPhase, create_snowflake_account, he, hi, hp, hk, hs, ht] at hr <;>
              (subst hr; rfl)
          · simp [accountPhase, create_snowflake_account, he, hi, hp, hk, hs] at hr
            subst hr
            rfl
  · simp [accountPhase, he] at hr

theorem assign_requests_warehouse_only (cfg : Config) (byos_id name : String)
    (acts : Option (List String)) (listResp : HttpResponse)
    (listJson : List Warehouse) (assignResp : HttpResponse) :
    ∀ r ∈ (assign_warehouse_to_integration cfg byos_id name acts listResp
        listJson assignResp).requests,
      Request.isWarehouseRequest r = true := by
  intro r hr
  by_cases hok : listResp.status = 200
  · cases hfm : findMatch name listJson with
    | none =>
      simp [assign_warehouse_to_integration, get_available_warehouses, hok, hfm] at hr
      subst hr
      rfl
    | some m =>
      simp [assign_warehouse_to_integration, get_available_warehouses, hok, hfm] at hr
      rcases hr with rfl | rfl <;> rfl
  · simp [assign_warehouse_to_integration, get_available_warehouses, hok] at hr
    subst hr
    rfl

theorem not_warehouseRequest_of_accountPost (r : Request)
    (h : Request.isAccountPost r = true) : Request.isWarehouseRequest r = false := by
  cases r <;> simp_all [Request.isAccountPost, Request.isWarehouseRequest]

theorem not_accountPost_of_warehouseRequest (r : Request)
    (h : Request.isWarehouseRequest r = true) : Request.isAccountPost r = false := by
  cases r <;> simp_all [Request.isAccountPost, Request.isWarehouseRequest]

theorem mainRun_exitCode_eq (cfg : Config) (w : World) :
    (mainRun cfg w).exitCode = if accountPhaseFails cfg w then 1 else 0 := by
  have hv := accountPhase_value cfg w
  by_cases hf : accountPhaseFails cfg w
  · rw [if_pos hf] at hv
    simp [mainRun, hv, hf]
  · rw [if_neg hf] at hv
    rw [if_neg hf]
    simp only [mainRun, hv]
    split_ifs <;> rfl

theorem mainRun_requests_existing (cfg : Config) (w : World)
    (h : cfg.EXISTING_ACCOUNT_ID ≠ "") :
    (mainRun cfg w).requests =
      .postByos (byosAccountsUrl cfg)
          (byosPayload
            (if cfg.INTEGRATION_FRIENDLY_NAME = "" then cfg.DISPLAY_NAME
             else cfg.INTEGRATION_FRIENDLY_NAME)
            cfg.INTEGRATION_DESCRIPTION cfg.EXISTING_ACCOUNT_ID) ::
        (if (w.byosResp.status = 200 ∨ w.byosResp.status = 201) ∧ cfg.WAREHOUSE_NAME ≠ "" then
          if pyTruthy w.byosId then
            (assign_warehouse_to_integration cfg (w.byosId.getD "") cfg.WAREHOUSE_NAME
              none w.listResp w.listJson w.assignResp).requests
          else []
        else []) := by
  have hv : (accountPhase cfg w).value = Except.ok cfg.EXISTING_ACCOUNT_ID := by
    simp [accountPhase, h]
  have hreq : (accountPhase cfg w).requests = [] := by
    simp [accountPhase, h]
  simp only [mainRun, hv]
  by_cases hb : (w.byosResp.status = 200 ∨ w.byosResp.status = 201) ∧ cfg.WAREHOUSE_NAME ≠ ""
  · rw [if_pos hb, if_pos hb]
    cases ht : pyTruthy w.byosId <;>
      simp [hreq, create_byos_integration, byosPayload, ht]
  · rw [if_neg hb, if_neg hb]
    by_cases hw : cfg.WAREHOUSE_NAME = "" <;>
      simp [hreq, create_byos_integration, byosPayload, hw]

/-! ### Driver-level claims -/

/-- C1 (amended): the process exits with status 1 exactly when the account
phase fails — i.e. no existing account id is supplied and either a
configuration check fails, the key file is unreadable, account creation
returns a status other than 200/201, or its body lacks a non-empty `id`.
Every other run — including runs in which integration creation, warehouse
listing, or warehouse assignment receives a non-2xx response — exits 0. -/
theorem exit_status_characterization (cfg : Config) (w : World) :
    (mainRun cfg w).exitCode = if accountPhaseFails cfg w then 1 else 0 :=
  mainRun_exitCode_eq cfg w

/-- Counterexample to C1 as stated: with an existing account id and a
warehouse name configured, a 500 response to the integration-creation POST
(a non-2xx response to one of the four API steps) still ends the process
with exit status 0, not 1. -/
theorem byos_failure_exits_zero :
    wByosFails.byosResp.status = 500 ∧
    ¬ (200 ≤ wByosFails.byosResp.status ∧ wByosFails.byosResp.status < 300) ∧
    ((mainRun cfgExisting wByosFails).requests.filter Request.isByosPost).length = 1 ∧
    (mainRun cfgExisting wByosFails).exitCode = 0 := by
  decide

/-- C3: when `EXISTING_ACCOUNT_ID` is non-empty, no POST is ever issued to
the account-creation endpoint, and the supplied identifier is passed
verbatim as `serviceAccountId` of the integration-creation payload — the
first request of the run — without any validation. -/
theorem existing_account_skips_creation (cfg : Config) (w : World)
    (h : cfg.EXISTING_ACCOUNT_ID ≠ "") :
    (∀ r ∈ (mainRun cfg w).requests, Request.isAccountPost r = false) ∧
    (mainRun cfg w).requests.head? = some (.postByos (byosAccountsUrl cfg)
      (byosPayload
        (if cfg.INTEGRATION_FRIENDLY_NAME = "" then cfg.DISPLAY_NAME
         else cfg.INTEGRATION_FRIENDLY_NAME)
        cfg.INTEGRATION_DESCRIPTION cfg.EXISTING_ACCOUNT_ID)) ∧
    (byosPayload
        (if cfg.INTEGRATION_FRIENDLY_NAME = "" then cfg.DISPLAY_NAME
         else cfg.INTEGRATION_FRIENDLY_NAME)
        cfg.INTEGRATION_DESCRIPTION cfg.EXISTING_ACCOUNT_ID).serviceAccountId.value
      = cfg.EXISTING_ACCOUNT_ID := by
  have hmr := mainRun_requests_existing cfg w h
  refine ⟨?_, ?_, rfl⟩
  · intro r hr
    rw [hmr] at hr
    rcases List.mem_cons.1 hr with rfl | htail
    · rfl
    · split at htail
      · split at htail
        · exact not_accountPost_of_warehouseRequest r
            (assign_requests_warehouse_only cfg (w.byosId.getD "") cfg.WAREHOUSE_NAME
              none w.listResp w.listJson w.assignResp r htail)
        · simp at htail
      · simp at htail
  · rw [hmr]
    rfl

/-- Witness for C3: with `cfgExisting` (existing id `account-42`) the run
issues no account POST; its first request is the integration POST carrying
`account-42` as `serviceAccountId`. -/
theorem existing_account_skips_creation_witness :
    Request.isAccountPost (Request.postByos (byosAccountsUrl cfgExisting)
      (byosPayload
        (if cfgExisting.INTEGRATION_FRIENDLY_NAME = "" then cfgExisting.DISPLAY_NAME
         else cfgExisting.INTEGRATION_FRIENDLY_NAME)
        cfgExisting.INTEGRATION_DESCRIPTION cfgExisting.EXISTING_ACCOUNT_ID)) = false ∧
    (mainRun cfgExisting wByosFails).requests.head? = some (.postByos (byosAccountsUrl cfgExisting)
      (byosPayload
        (if cfgExisting.INTEGRATION_FRIENDLY_NAME = "" then cfgExisting.DISPLAY_NAME
         else cfgExisting.INTEGRATION_FRIENDLY_NAME)
        cfgExisting.INTEGRATION_DESCRIPTION cfgExisting.EXISTING_ACCOUNT_ID)) ∧
    (byosPayload
        (if cfgExisting.INTEGRATION_FRIENDLY_NAME = "" then cfgExisting.DISPLAY_NAME
         else cfgExisting.INTEGRATION_FRIENDLY_NAME)
        cfgExisting.INTEGRATION_DESCRIPTION cfgExisting.EXISTING_ACCOUNT_ID).serviceAccountId.value
      = cfgExisting.EXISTING_ACCOUNT_ID :=
  ⟨(existing_account_skips_creation cfgExisting wByosFails (by decide)).1 _ (by decide),
   (existing_account_skips_creation cfgExisting wByosFails (by decide)).2.1,
   (existing_account_skips_creation cfgExisting wByosFails (by decide)).2.2⟩

/-- C4 (amended): for every valid configuration, if `create_snowflake_account`
returns a **200 or 201** response whose body lacks a non-empty `id`, the
workflow prints the missing-id error and exits 1 having issued only the
account POST — the integration-creation request is never sent. -/
theorem missing_id_reports_and_halts (cfg : Config) (w : World) (k : String)
    (hex : cfg.EXISTING_ACCOUNT_ID = "")
    (hi : cfg.INSTANCE ≠ "") (hp : cfg.PRIVATE_KEY_FILE ≠ "")
    (hk : w.keyFile = some k)
    (hs : w.accountResp.status = 200 ∨ w.accountResp.status = 201)
    (hid : pyTruthy w.accountId = false) :
    OutEvent.line "Error: Could not extract account ID from response" ∈ (mainRun cfg w).printed ∧
    (mainRun cfg w).exitCode = 1 ∧
    (mainRun cfg w).requests = [.postAccount (accountsUrl cfg) (accountPayload cfg k)] := by
  refine ⟨?_, ?_, ?_⟩ <;>
    simp [mainRun, accountPhase, create_snowflake_account, hex, hi, hp, hk, hs, hid]

/-- Witness for C4 (amended): a 200 account-creation response lacking `id`
makes the run print the missing-id error, exit 1, and issue one request. -/
theorem missing_id_reports_and_halts_witness :
    OutEvent.line "Error: Could not extract account ID from response" ∈ (mainRun exCfg wNoId).printed ∧
    (mainRun exCfg wNoId).exitCode = 1 ∧
    (mainRun exCfg wNoId).requests = [.postAccount (accountsUrl exCfg) (accountPayload exCfg "PEMKEY")] :=
  missing_id_reports_and_halts exCfg wNoId "PEMKEY" (by decide) (by decide) (by decide)
    (by decide) (by decide) (by decide)

/-- Counterexample to C4 as stated: a 202 response is 2xx, yet with a body
lacking `id` the workflow never prints the missing-id error (it takes the
generic account-creation-failure branch instead), so the claim's "2xx" is
wrong — the code checks exactly 200/201. -/
theorem account_202_missing_id_not_reported :
    exCfg.EXISTING_ACCOUNT_ID = "" ∧ exCfg.INSTANCE ≠ "" ∧ exCfg.PRIVATE_KEY_FILE ≠ "" ∧
    w202NoId.keyFile = some "PEMKEY" ∧
    (200 ≤ w202NoId.accountResp.status ∧ w202NoId.accountResp.status < 300) ∧
    w202NoId.accountId = none ∧
    OutEvent.line "Error: Could not extract account ID from response" ∉ (mainRun exCfg w202NoId).printed ∧
    (mainRun exCfg w202NoId).exitCode = 1 := by
  decide

/-- C6: when `WAREHOUSE_NAME` is empty and the account phase and
integration creation succeed, the run exits 0 and issues zero requests
(GET or PUT) to the warehouse endpoints. -/
theorem empty_warehouse_name_skips_warehouse_calls (cfg : Config) (w : World)
    (hw : cfg.WAREHOUSE_NAME = "")
    (hacc : ¬ accountPhaseFails cfg w)
    (_hb : w.byosResp.status = 200 ∨ w.byosResp.status = 201) :
    (mainRun cfg w).exitCode = 0 ∧
    (∀ r ∈ (mainRun cfg w).requests, Request.isWarehouseRequest r = false) := by
  have hv := accountPhase_value cfg w
  rw [if_neg hacc] at hv
  have hc : ¬ ((w.byosResp.status = 200 ∨ w.byosResp.status = 201) ∧ cfg.WAREHOUSE_NAME ≠ "") := by
    simp [hw]
  constructor
  · simp only [mainRun, hv]
    rw [if_neg hc, if_pos hw]
  · intro r hr
    simp only [mainRun, hv] at hr
    rw [if_neg hc, if_pos hw] at hr
    simp only [List.mem_append] at hr
    rcases hr with h1 | h2
    · exact not_warehouseRequest_of_accountPost r
        (accountPhase_requests_are_accountPosts cfg w r h1)
    · have : r = Request.postByos (byosAccountsUrl cfg)
          (byosPayload
            (if cfg.INTEGRATION_FRIENDLY_NAME = "" then cfg.DISPLAY_NAME
             else cfg.INTEGRATION_FRIENDLY_NAME)
            cfg.INTEGRATION_DESCRIPTION
            (if cfg.EXISTING_ACCOUNT_ID = "" then w.accountId.getD ""
             else cfg.EXISTING_ACCOUNT_ID)) := by
        simpa [create_byos_integration, byosPayload] using h2
      subst this
      rfl

/-- Witness for C6: with an empty warehouse name and an otherwise fully
successful world, the run exits 0 and its account POST is not a warehouse
request. -/
theorem empty_warehouse_name_skips_warehouse_calls_witness :
    (mainRun cfgNoWh wAllOk).exitCode = 0 ∧
    Request.isWarehouseRequest
      (Request.postAccount (accountsUrl cfgNoWh) (accountPayload cfgNoWh "PEMKEY")) = false :=
  ⟨(empty_warehouse_name_skips_warehouse_calls cfgNoWh wAllOk (by decide) (by decide) (by decide)).1,
   (empty_warehouse_name_skips_warehouse_calls cfgNoWh wAllOk (by decide) (by decide) (by decide)).2
     _ (by decide)⟩

/-- C7: the printed output of `create_snowflake_account` is independent of
the private-key contents (the only payload ever printed is the redacted
debug copy, whose `privateKey` field is the fixed sentinel), while the
outbound POST body carries the raw key — and it is exactly the unredacted
payload, so the debug copy did not modify what is sent. -/
theorem private_key_redacted_but_sent (cfg : Config) (resp : HttpResponse) (k k1 k2 : String) :
    (create_snowflake_account cfg (some k1) resp).printed
      = (create_snowflake_account cfg (some k2) resp).printed ∧
    (∀ p, OutEvent.accountDump p ∈ (create_snowflake_account cfg (some k) resp).printed →
      p.configurations.privateKey = hiddenKeySentinel) ∧
    (cfg.INSTANCE ≠ "" → cfg.PRIVATE_KEY_FILE ≠ "" →
      (create_snowflake_account cfg (some k) resp).requests
        = [.postAccount (accountsUrl cfg) (accountPayload cfg k)] ∧
      (accountPayload cfg k).configurations.privateKey = k) := by
  refine ⟨?_, ?_, fun hi hp => ⟨?_, rfl⟩⟩
  · by_cases hi : cfg.INSTANCE = ""
    · simp [create_snowflake_account, hi]
    · by_cases hp : cfg.PRIVATE_KEY_FILE = ""
      · simp [create_snowflake_account, hi, hp]
      · simp [create_snowflake_account, hi, hp, debugAccountPayload, accountPayload]
  · intro p hp'
    by_cases hi : cfg.INSTANCE = ""
    · simp [create_snowflake_account, hi] at hp'
    · by_cases hpk : cfg.PRIVATE_KEY_FILE = ""
      · simp [create_snowflake_account, hi, hpk] at hp'
      · by_cases hst : resp.status = 200 ∨ resp.status = 201 <;>
          simp [create_snowflake_account, hi, hpk, hst] at hp' <;>
          simp [hp', debugAccountPayload, accountPayload, hiddenKeySentinel]
  · simp [create_snowflake_account, hi, hp]

/-- Witness for C7: concrete keys `KEY-ONE`/`KEY-TWO` print identically;
the debug dump's key field is the sentinel; the POST body carries the raw
key `KEY-A`. -/
theorem private_key_redacted_but_sent_witness :
    (create_snowflake_account exCfg (some "KEY-ONE") ok200).printed
      = (create_snowflake_account exCfg (some "KEY-TWO") ok200).printed ∧
    (debugAccountPayload exCfg "KEY-A").configurations.privateKey = hiddenKeySentinel ∧
    (create_snowflake_account exCfg (some "KEY-A") ok200).requests
      = [.postAccount (accountsUrl exCfg) (accountPayload exCfg "KEY-A")] ∧
    (accountPayload exCfg "KEY-A").configurations.privateKey = "KEY-A" := by
  have h := private_key_redacted_but_sent exCfg ok200 "KEY-A" "KEY-ONE" "KEY-TWO"
  exact ⟨h.1, h.2.1 _ (by decide), (h.2.2 (by decide) (by decide)).1,
    (h.2.2 (by decide) (by decide)).2⟩

end SnowflakeIntegration
